import Mathlib

/-
Verification of the pgx-reconnect resilience wrapper (reconnect.go).

The development shallowly embeds the Go source: the driver (pgx) and the
backoff policy (cenkalti/backoff/v4 at v4.3.0, as pinned by go.mod) are
external collaborators, modelled by oracles supplying the outcome of each
driver call and by a faithful rendering of backoff v4.3.0 Retry semantics
(Retry returns nil on success, unwraps a PermanentError and returns its
inner error, returns the context error on cancellation, and returns the
last operation error on policy exhaustion).
-/

namespace PgxReconnect

/-- Driver connection handle (pgx.Conn): an identity plus the value its
IsClosed method reports at the time of the modelled call. -/
structure Conn where
  id : Nat
  closed : Bool
deriving DecidableEq, Repr

/-- Driver-level error together with the classifications the pgx driver
reports for it: the message string (for strings.Contains), pgconn.Timeout,
whether errors.Is against pgconn.ConnectError holds, and
pgconn.SafeToRetry. -/
structure DriverErr where
  msg : String
  timeout : Bool
  connectError : Bool
  safeToRetry : Bool
deriving DecidableEq, Repr

/-- Errors occurring in the program: the two sentinels of reconnect.go
(ErrNoConnString and, via the composite constructor, ErrReconnect), a
context cancellation error, opaque driver errors, a backoff
PermanentError wrapper, and the composite error built by
fmt.Errorf in Query/Exec/Ping wrapping the reconnect failure and the
original failure. -/
inductive Err where
  | noConnString
  | ctxCanceled
  | driver (e : DriverErr)
  | permanent (inner : Err)
  | reconnectFailed (re : Err) (orig : Err)
deriving DecidableEq, Repr

/-- The Error() string of an error, mirroring each Go constructor. -/
def errMsg : Err → String
  | .noConnString => "no connection string provided"
  | .ctxCanceled => "context canceled"
  | .driver d => d.msg
  | .permanent inner => errMsg inner
  | .reconnectFailed re orig =>
      "error while reconnecting: " ++ errMsg re ++ ", original error: " ++ errMsg orig

/-- pgconn.Timeout: traverses the unwrap chain looking for a timeout
classification. -/
def errTimeout : Err → Bool
  | .driver d => d.timeout
  | .permanent inner => errTimeout inner
  | .reconnectFailed re orig => errTimeout re || errTimeout orig
  | _ => false

/-- errors.Is(err, pgconn.ConnectError): traverses the unwrap chain for a
connection-establishment failure. -/
def errIsConnectError : Err → Bool
  | .driver d => d.connectError
  | .permanent inner => errIsConnectError inner
  | .reconnectFailed re orig => errIsConnectError re || errIsConnectError orig
  | _ => false

/-- pgconn.SafeToRetry: traverses the unwrap chain for the safe-to-retry
classification. -/
def errSafeToRetry : Err → Bool
  | .driver d => d.safeToRetry
  | .permanent inner => errSafeToRetry inner
  | .reconnectFailed re orig => errSafeToRetry re || errSafeToRetry orig
  | _ => false

/-- errors.As(err, target *backoff.PermanentError): finds the first
PermanentError in the unwrap tree and yields its inner error. -/
def asPermanent : Err → Option Err
  | .permanent inner => some inner
  | .reconnectFailed re orig =>
      match asPermanent re with
      | some x => some x
      | none => asPermanent orig
  | _ => none

/-- An error wraps a PermanentError somewhere in its unwrap tree. -/
def wrapsPermanent (e : Err) : Bool := (asPermanent e).isSome

/-- Sanctioned error shape: if the error carries a permanent marking, the
inner error is not itself permanent-marked. backoff.Permanent wraps a
classified failure exactly once, so errors produced through the backoff
collaborator contract satisfy this. -/
def wfErr (e : Err) : Bool :=
  match asPermanent e with
  | some inner => !wrapsPermanent inner
  | none => true

/-- Character-list version of a string starting-with test, used to build
the strings.Contains check of reconnectable. -/
def isPre : List Char → List Char → Bool
  | [], _ => true
  | _ :: _, [] => false
  | a :: as, b :: bs => a == b && isPre as bs

/-- strings.Contains on character lists: the pattern occurs somewhere in
the subject. -/
def hasSub (p : List Char) : List Char → Bool
  | [] => isPre p []
  | b :: bs => isPre p (b :: bs) || hasSub p bs

/-- The known phrase matched textually by reconnectable. -/
def connClosedPhrase : List Char := "conn closed".toList

/-- reconnectable (reconnect.go lines 132-146): the early-return chain of
the Go function, in source order. -/
def reconnectable (e : Err) : Bool :=
  match hasSub connClosedPhrase (errMsg e).toList with
  | true => true
  | false =>
    match errTimeout e with
    | true => true
    | false =>
      match errIsConnectError e with
      | true => true
      | false =>
        match errSafeToRetry e with
        | true => true
        | false => false

/-- The retryability classifier as the specification words it (section
4.2): a plain disjunction of the four conditions. Stated separately from
reconnectable so the two can be compared. -/
def isRetryableSpec (e : Err) : Bool :=
  hasSub connClosedPhrase (errMsg e).toList || errTimeout e ||
    errIsConnectError e || errSafeToRetry e

/-- C3: the retryability classifier is a pure boolean function of the
error and returns true iff at least one of the four conditions holds
(conn-closed message, driver timeout, connection-establishment failure,
driver safe-to-retry), and false for every other error. Formally, the
source classifier reconnectable coincides with the specification
disjunction isRetryableSpec on every error. -/
theorem c3_classifier_matches_spec :
    ∀ e : Err, reconnectable e = isRetryableSpec e := by
  intro e
  unfold reconnectable isRetryableSpec
  cases h1 : hasSub connClosedPhrase (errMsg e).toList <;>
    cases h2 : errTimeout e <;>
      cases h3 : errIsConnectError e <;>
        cases h4 : errSafeToRetry e <;> rfl

/-- The ReConn state: the connection string, the currently owned handle
(nil or a driver connection), and whether a backoff policy is installed
(c.Backoff non-nil). -/
structure ReConn where
  connString : String
  conn : Option Conn
  backoffSet : Bool
deriving DecidableEq, Repr

/-- The health condition of checkConn: c.Conn != nil and not
c.Conn.IsClosed(). -/
def healthy (st : ReConn) : Bool :=
  match st.conn with
  | some h => !h.closed
  | none => false

/-- Outcome of one pgx.Connect attempt inside the retry loop. -/
inductive ConnectOutcome where
  | ok (c : Conn)
  | fail (e : Err)

/-- Environment of one backoff.Retry invocation: the outcome each
successive pgx.Connect attempt would produce, the number of intervals the
policy yields before signalling Stop (exhaustion), and the time slot at
which the context becomes cancelled. Iteration i occupies the op slot 2*i
and the wait slot 2*i+1; cancellation at slot t is visible from t on. -/
structure RetryEnv where
  attempts : Nat → ConnectOutcome
  waits : Nat
  cancelAt : Option Nat

/-- Whether the context is observed cancelled at the given time slot. -/
def ctxCancelledBy (cancelAt : Option Nat) (slot : Nat) : Bool :=
  match cancelAt with
  | none => false
  | some t => t ≤ slot

/-- Which return statement of the backoff v4.3.0 retry loop fired:
operation success, permanent short-circuit, NextBackOff Stop, or
context cancellation during the wait. -/
inductive EndKind where
  | success
  | permanentEnd
  | stopEnd
  | cancelEnd
deriving DecidableEq, Repr

/-- Result of the retry loop: the connection the operation closure stored
(none on every failure path), the error backoff.Retry returned, which
branch ended the loop, and how many pgx.Connect attempts were made. -/
structure RetryResult where
  conn : Option Conn
  err : Option Err
  endKind : EndKind
  attemptsUsed : Nat
deriving DecidableEq, Repr

/-- One spin of backoff v4.3.0 doRetryNotify with w NextBackOff budget
remaining and current iteration index i: run the operation; on success
return nil; if the error wraps a PermanentError return its inner error;
if NextBackOff signals Stop return the context error when cancelled else
the last error; otherwise wait, aborting with the context error if the
context is cancelled during the wait. -/
def retryAux (env : RetryEnv) (w i : Nat) : RetryResult :=
  match env.attempts i with
  | .ok c => ⟨some c, none, .success, i + 1⟩
  | .fail e =>
    match asPermanent e with
    | some inner => ⟨none, some inner, .permanentEnd, i + 1⟩
    | none =>
      match w with
      | 0 =>
        ⟨none,
          some (if ctxCancelledBy env.cancelAt (2 * i) then Err.ctxCanceled else e),
          .stopEnd, i + 1⟩
      | w2 + 1 =>
        if ctxCancelledBy env.cancelAt (2 * i + 1) then
          ⟨none, some Err.ctxCanceled, .cancelEnd, i + 1⟩
        else retryAux env w2 (i + 1)

/-- backoff.Retry as called by Reconnect: a fresh sequence (b.Reset)
starting at attempt 0 with the policy budget of the environment. -/
def retryLoop (env : RetryEnv) : RetryResult :=
  retryAux env env.waits 0

/-- Sanctioned retry environment: every attempt failure has the
non-nested permanent shape produced by the backoff collaborator contract
(backoff.Permanent wraps a classified failure exactly once). -/
def WfEnv (env : RetryEnv) : Prop :=
  ∀ i e, env.attempts i = ConnectOutcome.fail e → wfErr e = true

/-- Result of a Reconnect call: the returned error, the updated state,
the number of driver Close calls made, and the number of pgx.Connect
attempts made. -/
structure ReconnectResult where
  err : Option Err
  st : ReConn
  closeCalls : Nat
  connectCalls : Nat
deriving DecidableEq, Repr

/-- Reconnect (reconnect.go lines 71-100): close and clear any existing
handle (ignoring the close error), fail with ErrNoConnString on an empty
connection string, install a default backoff policy if none is set, run
backoff.Retry of pgx.Connect, and post-process the loop error: nil on
success, the inner error when the loop error wraps a PermanentError, nil
otherwise. -/
def Reconnect (env : RetryEnv) (st : ReConn) : ReconnectResult :=
  let closeCalls : Nat :=
    match st.conn with
    | some _ => 1
    | none => 0
  if st.connString = "" then
    ⟨some Err.noConnString, { st with conn := none }, closeCalls, 0⟩
  else
    let r := retryLoop env
    let st2 : ReConn := { st with conn := r.conn, backoffSet := true }
    match r.err with
    | none => ⟨none, st2, closeCalls, r.attemptsUsed⟩
    | some e =>
      match asPermanent e with
      | some inner => ⟨some inner, st2, closeCalls, r.attemptsUsed⟩
      | none => ⟨none, st2, closeCalls, r.attemptsUsed⟩

/-- Result of the Connect constructor: the returned ReConn value (nil
when the connection string is empty) together with the error and the
driver call counts. -/
structure ConnectResult where
  res : Option ReConn
  err : Option Err
  closeCalls : Nat
  connectCalls : Nat
deriving DecidableEq, Repr

/-- Connect (reconnect.go lines 25-34): fail with ErrNoConnString on an
empty connection string, otherwise build the entity and return it
together with the error of an immediate Reconnect. -/
def Connect (env : RetryEnv) (connString : String) (backoffSet : Bool) : ConnectResult :=
  if connString = "" then ⟨none, some Err.noConnString, 0, 0⟩
  else
    let st0 : ReConn := ⟨connString, none, backoffSet⟩
    let r := Reconnect env st0
    ⟨some r.st, r.err, r.closeCalls, r.connectCalls⟩

/-- Result of checkConn: the returned error, the updated state, and the
numbers of Reconnect invocations, driver Close calls and pgx.Connect
attempts it caused. -/
structure CheckResult where
  err : Option Err
  st : ReConn
  reconnectCalls : Nat
  closeCalls : Nat
  connectCalls : Nat
deriving DecidableEq, Repr

/-- checkConn (reconnect.go lines 125-130): succeed without side effect
when the handle is non-nil and not closed, otherwise delegate to
Reconnect. -/
def checkConn (env : RetryEnv) (st : ReConn) : CheckResult :=
  if healthy st then ⟨none, st, 0, 0, 0⟩
  else
    let r := Reconnect env st
    ⟨r.err, r.st, 1, r.closeCalls, r.connectCalls⟩

/-- Outcome a non-nil driver call would return: the returned value
(rows handle, command tag, or unused for ping), modelled opaquely, and
the returned error. -/
structure CallOutcome where
  val : Nat
  err : Option Err
deriving DecidableEq, Repr

/-- Environment of one Query/Exec/Ping call: the retry environment used
by a checkConn-triggered Reconnect, the outcome of the first delegated
driver call, the retry environment of the failure-triggered Reconnect,
and the outcome of the re-issued driver call. -/
structure OpEnv where
  checkEnv : RetryEnv
  call1 : CallOutcome
  retryEnv : RetryEnv
  call2 : CallOutcome

/-- Observable outcome of an operation: either the function returned the
pair (value, error), where a none value models the Go nil (or zero)
result, or the code dereferenced a nil connection handle (a runtime
panic in Go). -/
inductive OpOutcome where
  | ret (val : Option Nat) (err : Option Err)
  | nilDeref
deriving DecidableEq, Repr

/-- Result of an operation: its outcome, the number of delegated driver
calls of the operation itself, the number of Reconnect invocations, and
the final state. -/
structure OpRes where
  out : OpOutcome
  driverCalls : Nat
  reconnectCalls : Nat
  st : ReConn
deriving DecidableEq, Repr

/-- Query (reconnect.go lines 36-48): run checkConn and propagate its
error; delegate to Conn.Query; on a reconnectable failure perform one
Reconnect, returning the ErrReconnect composite if it errs, else
re-issue the query once and return that outcome as-is; otherwise return
the first outcome unchanged. -/
def Query (env : OpEnv) (st : ReConn) : OpRes :=
  let ck := checkConn env.checkEnv st
  match ck.err with
  | some e => ⟨.ret none (some e), 0, ck.reconnectCalls, ck.st⟩
  | none =>
    match ck.st.conn with
    | none => ⟨.nilDeref, 0, ck.reconnectCalls, ck.st⟩
    | some _ =>
      match env.call1.err with
      | none => ⟨.ret (some env.call1.val) none, 1, ck.reconnectCalls, ck.st⟩
      | some e =>
        if reconnectable e then
          let rr := Reconnect env.retryEnv ck.st
          match rr.err with
          | some re =>
              ⟨.ret none (some (.reconnectFailed re e)), 1, ck.reconnectCalls + 1, rr.st⟩
          | none =>
            match rr.st.conn with
            | none => ⟨.nilDeref, 1, ck.reconnectCalls + 1, rr.st⟩
            | some _ =>
                ⟨.ret (some env.call2.val) env.call2.err, 2, ck.reconnectCalls + 1, rr.st⟩
        else ⟨.ret (some env.call1.val) (some e), 1, ck.reconnectCalls, ck.st⟩

/-- Exec (reconnect.go lines 57-69): identical control flow to Query,
delegating to Conn.Exec; the zero CommandTag returned on the error paths
is modelled by a none value. -/
def Exec (env : OpEnv) (st : ReConn) : OpRes :=
  let ck := checkConn env.checkEnv st
  match ck.err with
  | some e => ⟨.ret none (some e), 0, ck.reconnectCalls, ck.st⟩
  | none =>
    match ck.st.conn with
    | none => ⟨.nilDeref, 0, ck.reconnectCalls, ck.st⟩
    | some _ =>
      match env.call1.err with
      | none => ⟨.ret (some env.call1.val) none, 1, ck.reconnectCalls, ck.st⟩
      | some e =>
        if reconnectable e then
          let rr := Reconnect env.retryEnv ck.st
          match rr.err with
          | some re =>
              ⟨.ret none (some (.reconnectFailed re e)), 1, ck.reconnectCalls + 1, rr.st⟩
          | none =>
            match rr.st.conn with
            | none => ⟨.nilDeref, 1, ck.reconnectCalls + 1, rr.st⟩
            | some _ =>
                ⟨.ret (some env.call2.val) env.call2.err, 2, ck.reconnectCalls + 1, rr.st⟩
        else ⟨.ret (some env.call1.val) (some e), 1, ck.reconnectCalls, ck.st⟩

/-- Ping (reconnect.go lines 102-114): identical control flow to Query,
delegating to Conn.Ping, which returns only an error (the value slot is
always none). -/
def Ping (env : OpEnv) (st : ReConn) : OpRes :=
  let ck := checkConn env.checkEnv st
  match ck.err with
  | some e => ⟨.ret none (some e), 0, ck.reconnectCalls, ck.st⟩
  | none =>
    match ck.st.conn with
    | none => ⟨.nilDeref, 0, ck.reconnectCalls, ck.st⟩
    | some _ =>
      match env.call1.err with
      | none => ⟨.ret none none, 1, ck.reconnectCalls, ck.st⟩
      | some e =>
        if reconnectable e then
          let rr := Reconnect env.retryEnv ck.st
          match rr.err with
          | some re =>
              ⟨.ret none (some (.reconnectFailed re e)), 1, ck.reconnectCalls + 1, rr.st⟩
          | none =>
            match rr.st.conn with
            | none => ⟨.nilDeref, 1, ck.reconnectCalls + 1, rr.st⟩
            | some _ => ⟨.ret none env.call2.err, 2, ck.reconnectCalls + 1, rr.st⟩
        else ⟨.ret none (some e), 1, ck.reconnectCalls, ck.st⟩

/-- Environment of a QueryRow call: the retry environment of a
checkConn-triggered Reconnect and the row handle the driver returns
(Conn.QueryRow reports no synchronous error). -/
structure RowEnv where
  checkEnv : RetryEnv
  rowVal : Nat

/-- QueryRow (reconnect.go lines 50-55): run checkConn and propagate its
error; otherwise delegate once to Conn.QueryRow and return the row
handle with a nil error. -/
def QueryRow (env : RowEnv) (st : ReConn) : OpRes :=
  let ck := checkConn env.checkEnv st
  match ck.err with
  | some e => ⟨.ret none (some e), 0, ck.reconnectCalls, ck.st⟩
  | none =>
    match ck.st.conn with
    | none => ⟨.nilDeref, 0, ck.reconnectCalls, ck.st⟩
    | some _ => ⟨.ret (some env.rowVal) none, 1, ck.reconnectCalls, ck.st⟩

/-- Result of a Close call: the returned error, the updated state, and
the number of driver Close calls made. -/
structure CloseResult where
  err : Option Err
  st : ReConn
  closeCalls : Nat
deriving DecidableEq, Repr

/-- Close (reconnect.go lines 116-123): a no-op returning nil when there
is no handle or the handle reports closed; otherwise close the handle
via the driver (closeErr is the driver outcome), clear the handle
unconditionally, and return that error. -/
def Close (closeErr : Option Err) (st : ReConn) : CloseResult :=
  match st.conn with
  | none => ⟨none, st, 0⟩
  | some h =>
    if h.closed then ⟨none, st, 0⟩
    else ⟨closeErr, { st with conn := none }, 1⟩

/-- Closed-branch test of Close: no handle, or a handle reporting
closed. -/
def noHandleOrClosed (st : ReConn) : Bool :=
  match st.conn with
  | none => true
  | some h => h.closed

/-- Concrete retry environment whose first attempt fails with a
permanent-marked connection failure. -/
def c1Env : RetryEnv :=
  ⟨fun _ => ConnectOutcome.fail (Err.permanent (Err.driver ⟨"boom", false, true, false⟩)), 2, none⟩

/-- Concrete state with a non-empty target and no handle. -/
def c1St : ReConn := ⟨"db", none, true⟩

/-- Concrete healthy state for the retry-then-succeed scenario. -/
def c2St : ReConn := ⟨"db", some ⟨1, false⟩, true⟩

/-- Concrete operation environment: first delegated call fails with a
conn-closed error, the reconnect succeeds, the re-issued call succeeds. -/
def c2Env : OpEnv :=
  ⟨⟨fun _ => ConnectOutcome.ok ⟨9, false⟩, 0, none⟩,
    ⟨0, some (Err.driver ⟨"conn closed", false, false, false⟩)⟩,
    ⟨fun _ => ConnectOutcome.ok ⟨2, false⟩, 0, none⟩,
    ⟨7, none⟩⟩

/-- Concrete healthy state for the non-retryable scenario. -/
def c4St : ReConn := ⟨"db", some ⟨1, false⟩, true⟩

/-- Concrete operation environment whose first delegated call fails with
a non-retryable syntax error. -/
def c4Env : OpEnv :=
  ⟨⟨fun _ => ConnectOutcome.ok ⟨9, false⟩, 0, none⟩,
    ⟨3, some (Err.driver ⟨"syntax error", false, false, false⟩)⟩,
    ⟨fun _ => ConnectOutcome.ok ⟨2, false⟩, 0, none⟩,
    ⟨7, none⟩⟩

/-- Concrete retry environment where the context is cancelled during the
first backoff wait. -/
def c5Env : RetryEnv :=
  ⟨fun _ => ConnectOutcome.fail (Err.driver ⟨"dial refused", false, true, false⟩), 1, some 1⟩

/-- Concrete state with a non-empty target and no handle. -/
def c5St : ReConn := ⟨"db", none, true⟩

/-- Concrete retry environment (never reached on the empty-target path). -/
def c6Env : RetryEnv :=
  ⟨fun _ => ConnectOutcome.fail (Err.driver ⟨"x", false, false, false⟩), 0, none⟩

/-- Concrete state with an empty target and a live handle. -/
def c6St : ReConn := ⟨"", some ⟨5, false⟩, true⟩

/-- Concrete state with a live handle for the Close scenario. -/
def c7St : ReConn := ⟨"db", some ⟨3, false⟩, true⟩

/-- Concrete error the driver close reports. -/
def c7Err : Err := Err.driver ⟨"close failed", false, false, false⟩

/-- Concrete healthy state for the QueryRow scenario. -/
def c8St : ReConn := ⟨"db", some ⟨4, false⟩, true⟩

/-- Concrete QueryRow environment. -/
def c8Env : RowEnv := ⟨⟨fun _ => ConnectOutcome.ok ⟨9, false⟩, 0, none⟩, 11⟩

/-- Concrete retry environment exhausting immediately with a
non-permanent connection failure. -/
def c9Env : RetryEnv :=
  ⟨fun _ => ConnectOutcome.fail (Err.driver ⟨"refused", false, true, false⟩), 0, none⟩

/-- Concrete state with a non-empty target and no handle. -/
def c9St : ReConn := ⟨"db", none, false⟩

/-- Concrete state with a non-empty target and no handle. -/
def c10St : ReConn := ⟨"db", none, true⟩

/-- Concrete operation environment whose health-check reconnect exhausts
its policy without ever connecting. -/
def c10Env : OpEnv :=
  ⟨⟨fun _ => ConnectOutcome.fail (Err.driver ⟨"refused", false, true, false⟩), 0, none⟩,
    ⟨0, none⟩,
    ⟨fun _ => ConnectOutcome.ok ⟨1, false⟩, 0, none⟩,
    ⟨0, none⟩⟩

/-- One-step unfolding equation of the retry loop, used instead of the
definitional equation so rewriting does not recurse. -/
lemma retryAux_unfold (env : RetryEnv) (w i : Nat) :
    retryAux env w i =
      match env.attempts i with
      | .ok c => ⟨some c, none, .success, i + 1⟩
      | .fail e =>
        match asPermanent e with
        | some inner => ⟨none, some inner, .permanentEnd, i + 1⟩
        | none =>
          match w with
          | 0 =>
            ⟨none,
              some (if ctxCancelledBy env.cancelAt (2 * i) then Err.ctxCanceled else e),
              .stopEnd, i + 1⟩
          | w2 + 1 =>
            if ctxCancelledBy env.cancelAt (2 * i + 1) then
              ⟨none, some Err.ctxCanceled, .cancelEnd, i + 1⟩
            else retryAux env w2 (i + 1) := by
  rw [retryAux]

/-- Characterization of a retry-loop failure: the loop error either came
from the permanent short-circuit, in which case it is the inner error of
some permanent-marked attempt failure, or from the Stop/cancellation
branches, in which case it does not wrap a PermanentError. -/
lemma retryAux_err_char (env : RetryEnv) :
    ∀ (w i : Nat) (e : Err), (retryAux env w i).err = some e →
      ((retryAux env w i).endKind = EndKind.permanentEnd ∧
        ∃ j e0, env.attempts j = ConnectOutcome.fail e0 ∧ asPermanent e0 = some e) ∨
      (((retryAux env w i).endKind = EndKind.stopEnd ∨
          (retryAux env w i).endKind = EndKind.cancelEnd) ∧ asPermanent e = none) := by
  intro w
  induction w with
  | zero =>
    intro i e h
    rw [retryAux_unfold] at h ⊢
    cases hA : env.attempts i with
    | ok c => simp [hA] at h
    | fail e0 =>
      cases hP : asPermanent e0 with
      | some inner =>
        simp [hA, hP] at h ⊢
        exact ⟨i, e0, hA, by rw [hP, h]⟩
      | none =>
        simp [hA, hP] at h ⊢
        cases hC : ctxCancelledBy env.cancelAt (2 * i) with
        | true => simp [hC] at h; subst h; rfl
        | false => simp [hC] at h; subst h; exact hP
  | succ w2 ih =>
    intro i e h
    rw [retryAux_unfold] at h ⊢
    cases hA : env.attempts i with
    | ok c => simp [hA] at h
    | fail e0 =>
      cases hP : asPermanent e0 with
      | some inner =>
        simp [hA, hP] at h ⊢
        exact ⟨i, e0, hA, by rw [hP, h]⟩
      | none =>
        cases hC : ctxCancelledBy env.cancelAt (2 * i + 1) with
        | true =>
          simp [hA, hP, hC] at h ⊢
          subst h; rfl
        | false =>
          simp [hA, hP, hC] at h ⊢
          exact ih (i + 1) e h

/-- Correlation between the end kind, the stored connection and the loop
error: success stores a connection and reports no error, every other end
kind stores none and reports an error. -/
lemma retryAux_conn_char (env : RetryEnv) :
    ∀ (w i : Nat),
      ((retryAux env w i).endKind = EndKind.success ∧ (retryAux env w i).err = none ∧
        ∃ c, (retryAux env w i).conn = some c) ∨
      ((retryAux env w i).endKind ≠ EndKind.success ∧ (retryAux env w i).conn = none ∧
        ∃ e, (retryAux env w i).err = some e) := by
  intro w
  induction w with
  | zero =>
    intro i
    rw [retryAux_unfold]
    cases hA : env.attempts i with
    | ok c => exact Or.inl (by simp [hA])
    | fail e0 =>
      cases hP : asPermanent e0 with
      | some inner => exact Or.inr (by simp [hA, hP])
      | none => exact Or.inr (by simp [hA, hP])
  | succ w2 ih =>
    intro i
    rw [retryAux_unfold]
    cases hA : env.attempts i with
    | ok c => exact Or.inl (by simp [hA])
    | fail e0 =>
      cases hP : asPermanent e0 with
      | some inner => exact Or.inr (by simp [hA, hP])
      | none =>
        cases hC : ctxCancelledBy env.cancelAt (2 * i + 1) with
        | true => exact Or.inr (by simp [hA, hP, hC])
        | false =>
          simp only [hA, hP, hC]
          simp only [Bool.false_eq_true, if_false]
          exact ih (i + 1)

/-- Error returned by Reconnect on a non-empty connection string: the
loop error filtered through the errors.As PermanentError unwrap. -/
lemma Reconnect_err_eq (env : RetryEnv) (st : ReConn) (hcs : ¬ st.connString = "") :
    (Reconnect env st).err = (retryLoop env).err.bind asPermanent := by
  unfold Reconnect
  simp only [hcs, if_false]
  cases h : (retryLoop env).err with
  | none => simp [h]
  | some e =>
    cases hP : asPermanent e with
    | none => simp [h, hP]
    | some inner => simp [h, hP]

/-- State produced by Reconnect on a non-empty connection string: the
handle is whatever the loop stored and a backoff policy is installed. -/
lemma Reconnect_st_eq (env : RetryEnv) (st : ReConn) (hcs : ¬ st.connString = "") :
    (Reconnect env st).st =
      { st with conn := (retryLoop env).conn, backoffSet := true } := by
  unfold Reconnect
  simp only [hcs, if_false]
  cases h : (retryLoop env).err with
  | none => simp [h]
  | some e =>
    cases hP : asPermanent e with
    | none => simp [h, hP]
    | some inner => simp [h, hP]

/-- C1: whenever the backoff retry loop of Reconnect terminates because
the connection-attempt failure was classified permanent (and, under the
backoff collaborator contract, the permanent marking is not nested),
Reconnect returns no error, and loop terminations by policy exhaustion
(Stop) or context cancellation are suppressed the same way. This matches
backoff v4.3.0 Retry, which already unwraps PermanentError, so the
errors.As branch of Reconnect does not fire on such a loop error. -/
theorem c1_loop_failures_suppressed :
    ∀ (env : RetryEnv) (st : ReConn), ¬ st.connString = "" → WfEnv env →
      ∀ e, (retryLoop env).err = some e →
        ((retryLoop env).endKind = EndKind.permanentEnd ∨
          (retryLoop env).endKind = EndKind.stopEnd ∨
          (retryLoop env).endKind = EndKind.cancelEnd) →
        (Reconnect env st).err = none := by
  intro env st hcs hwf e h _hk
  rw [Reconnect_err_eq env st hcs, h]
  show asPermanent e = none
  rcases retryAux_err_char env env.waits 0 e h with ⟨_, j, e0, hAj, hPj⟩ | ⟨_, hP⟩
  · have hwfe := hwf j e0 hAj
    cases hq : asPermanent e with
    | none => rfl
    | some x =>
      exfalso
      simp [wfErr, hPj, wrapsPermanent, hq] at hwfe
  · exact hP

/-- C1 witness: a concrete permanent-marked connect failure ends the loop
through the permanent branch and Reconnect reports no error. -/
theorem c1_witness :
    (retryLoop c1Env).err = some (Err.driver ⟨"boom", false, true, false⟩) ∧
    (retryLoop c1Env).endKind = EndKind.permanentEnd ∧
    (Reconnect c1Env c1St).err = none := by
  refine ⟨rfl, rfl, ?_⟩
  refine c1_loop_failures_suppressed c1Env c1St (by decide) ?_ (Err.driver ⟨"boom", false, true, false⟩) rfl (Or.inl rfl)
  intro i e h
  injection h with h2
  rw [← h2]
  rfl

/-- C9: the only non-nil errors Reconnect can return are NoTargetError
(ErrNoConnString, for an empty target) and the unwrapped inner error of a
loop failure carrying a permanent marking, and for every loop failure
that is not permanent-marked (policy exhaustion, cancellation, any
non-permanent last error) Reconnect returns nil. -/
theorem c9_reconnect_error_bound :
    ∀ (env : RetryEnv) (st : ReConn),
      (∀ e, (Reconnect env st).err = some e →
        e = Err.noConnString ∨
        ((retryLoop env).endKind = EndKind.permanentEnd ∧
          ∃ ef, (retryLoop env).err = some ef ∧ asPermanent ef = some e)) ∧
      (¬ st.connString = "" →
        ((retryLoop env).endKind = EndKind.stopEnd ∨
          (retryLoop env).endKind = EndKind.cancelEnd) →
        (Reconnect env st).err = none) := by
  intro env st
  constructor
  · intro e h
    by_cases hcs : st.connString = ""
    · left
      unfold Reconnect at h
      simp only [hcs, if_true, if_pos] at h
      simp at h
      exact h.symm
    · right
      rw [Reconnect_err_eq env st hcs] at h
      cases hr : (retryLoop env).err with
      | none => rw [hr] at h; simp at h
      | some ef =>
        rw [hr] at h
        have h2 : asPermanent ef = some e := h
        rcases retryAux_err_char env env.waits 0 ef hr with ⟨hk, _⟩ | ⟨_, hP⟩
        · exact ⟨hk, ef, rfl, h2⟩
        · rw [hP] at h2; cases h2
  · intro hcs hk
    rw [Reconnect_err_eq env st hcs]
    cases hr : (retryLoop env).err with
    | none => rfl
    | some ef =>
      rcases retryAux_err_char env env.waits 0 ef hr with ⟨hk2, _⟩ | ⟨_, hP⟩
      · exfalso
        have hk3 : (retryLoop env).endKind = EndKind.permanentEnd := hk2
        rcases hk with hk | hk <;> rw [hk3] at hk <;> cases hk
      · exact hP

/-- C9 witness: a concrete exhausted loop whose last error was not
permanent-marked makes Reconnect return nil. -/
theorem c9_witness :
    ¬ (c9St.connString = "") ∧ (retryLoop c9Env).endKind = EndKind.stopEnd ∧
    (Reconnect c9Env c9St).err = none :=
  ⟨by decide, rfl, (c9_reconnect_error_bound c9Env c9St).2 (by decide) (Or.inl rfl)⟩

/-- C5 counterexample: with the context cancelled during the first
backoff wait, the retry loop ends through the cancellation branch, yet
Reconnect returns no error at all rather than reporting the cancellation
as its failure, refuting the claim at this concrete input (the handle
does remain nil). -/
theorem c5_counterexample :
    (retryLoop c5Env).endKind = EndKind.cancelEnd ∧
    (retryLoop c5Env).err = some Err.ctxCanceled ∧
    (Reconnect c5Env c5St).err = none ∧
    (Reconnect c5Env c5St).st.conn = none :=
  ⟨rfl, rfl, rfl, rfl⟩

/-- C5 amended: when the caller-supplied context is cancelled while
waiting in the backoff loop, the loop aborts with the cancellation, but
Reconnect suppresses it and returns no error, and the handle remains
nil. -/
theorem c5_amended_cancellation_suppressed :
    ∀ (env : RetryEnv) (st : ReConn), ¬ st.connString = "" →
      (retryLoop env).endKind = EndKind.cancelEnd →
      (Reconnect env st).err = none ∧ (Reconnect env st).st.conn = none := by
  intro env st hcs hk
  constructor
  · rw [Reconnect_err_eq env st hcs]
    cases hr : (retryLoop env).err with
    | none => rfl
    | some ef =>
      rcases retryAux_err_char env env.waits 0 ef hr with ⟨hk2, _⟩ | ⟨_, hP⟩
      · exfalso
        have hk3 : (retryLoop env).endKind = EndKind.permanentEnd := hk2
        rw [hk3] at hk
        cases hk
      · exact hP
  · rw [Reconnect_st_eq env st hcs]
    show (retryLoop env).conn = none
    rcases retryAux_conn_char env env.waits 0 with ⟨hk2, _, _⟩ | ⟨_, hc, _⟩
    · exfalso
      have hk3 : (retryLoop env).endKind = EndKind.success := hk2
      rw [hk3] at hk
      cases hk
    · exact hc

/-- C5 amended witness: the concrete cancellation scenario instantiating
the amended theorem. -/
theorem c5_amended_witness :
    ¬ (c5St.connString = "") ∧ (retryLoop c5Env).endKind = EndKind.cancelEnd ∧
    ((Reconnect c5Env c5St).err = none ∧ (Reconnect c5Env c5St).st.conn = none) :=
  ⟨by decide, rfl, c5_amended_cancellation_suppressed c5Env c5St (by decide) rfl⟩

/-- C6 counterexample: on an empty target with a live handle, Reconnect
does fail with ErrNoConnString and makes no connection attempt, but it
first closes the existing handle via the driver (one driver close call)
and clears it, refuting the claim that the driver is never called and
the handle never touched. -/
theorem c6_counterexample :
    (Reconnect c6Env c6St).err = some Err.noConnString ∧
    (Reconnect c6Env c6St).closeCalls = 1 ∧
    c6St.conn = some ⟨5, false⟩ ∧
    (Reconnect c6Env c6St).st.conn = none :=
  ⟨rfl, rfl, rfl, rfl⟩

/-- C6 amended: for every empty target, Connect and Reconnect fail with
ErrNoConnString and make no connection attempt; Connect never touches
the driver, while Reconnect first closes and clears a pre-existing
handle (one driver close call) before failing. -/
theorem c6_amended_empty_target :
    (∀ (env : RetryEnv) (bo : Bool), Connect env "" bo = ⟨none, some Err.noConnString, 0, 0⟩) ∧
    (∀ (env : RetryEnv) (st : ReConn), st.connString = "" →
      (Reconnect env st).err = some Err.noConnString ∧
      (Reconnect env st).connectCalls = 0 ∧
      (Reconnect env st).st.conn = none ∧
      (Reconnect env st).closeCalls = (if st.conn.isSome then 1 else 0)) := by
  constructor
  · intro env bo
    simp [Connect]
  · intro env st hcs
    cases hc : st.conn with
    | none => simp [Reconnect, hcs, hc]
    | some h => simp [Reconnect, hcs, hc]

/-- C6 amended witness: the concrete empty-target scenario instantiating
both halves of the amended theorem. -/
theorem c6_amended_witness :
    Connect c6Env "" true = ⟨none, some Err.noConnString, 0, 0⟩ ∧
    c6St.connString = "" ∧
    (Reconnect c6Env c6St).err = some Err.noConnString :=
  ⟨c6_amended_empty_target.1 c6Env true, rfl, (c6_amended_empty_target.2 c6Env c6St rfl).1⟩

/-- C7: Close is idempotent: with no handle or an already-closed handle
it is a no-op returning no error; otherwise it closes the handle via the
driver exactly once, clears the handle unconditionally even when the
driver close errs, and returns that error; consequently a second
consecutive Close never errs and never calls the driver close again. -/
theorem c7_close_idempotent :
    ∀ (st : ReConn) (e1 e2 : Option Err),
      (noHandleOrClosed st = true → Close e1 st = ⟨none, st, 0⟩) ∧
      (noHandleOrClosed st = false →
        Close e1 st = ⟨e1, { st with conn := none }, 1⟩) ∧
      (Close e2 (Close e1 st).st).err = none ∧
      (Close e2 (Close e1 st).st).closeCalls = 0 := by
  intro st e1 e2
  obtain ⟨cs, conn, bo⟩ := st
  cases conn with
  | none =>
    refine ⟨fun _ => rfl, fun hf => ?_, rfl, rfl⟩
    simp [noHandleOrClosed] at hf
  | some h =>
    cases hcl : h.closed with
    | true =>
      refine ⟨fun _ => ?_, fun hf => ?_, ?_, ?_⟩
      · simp [Close, hcl]
      · simp [noHandleOrClosed, hcl] at hf
      · simp [Close, hcl]
      · simp [Close, hcl]
    | false =>
      refine ⟨fun ht => ?_, fun _ => ?_, ?_, ?_⟩
      · simp [noHandleOrClosed, hcl] at ht
      · simp [Close, hcl]
      · simp [Close, hcl]
      · simp [Close, hcl]

/-- C7 witness: a concrete live handle whose driver close errs: the
error is returned, the handle is cleared, and a second Close is a no-op
without error. -/
theorem c7_witness :
    noHandleOrClosed c7St = false ∧
    Close (some c7Err) c7St = ⟨some c7Err, ⟨"db", none, true⟩, 1⟩ ∧
    (Close none (Close (some c7Err) c7St).st).err = none ∧
    (Close none (Close (some c7Err) c7St).st).closeCalls = 0 :=
  ⟨rfl, (c7_close_idempotent c7St (some c7Err) none).2.1 rfl,
    (c7_close_idempotent c7St (some c7Err) none).2.2.1,
    (c7_close_idempotent c7St (some c7Err) none).2.2.2⟩

/-- C10 counterexample: with an exhausting health-check reconnect,
checkConn returns no error while the handle is nil, and the subsequent
delegated Query call dereferences the nil handle, refuting the claimed
safety property at this concrete input. -/
theorem c10_counterexample :
    (checkConn c10Env.checkEnv c10St).err = none ∧
    (checkConn c10Env.checkEnv c10St).st.conn = none ∧
    (Query c10Env c10St).out = OpOutcome.nilDeref :=
  ⟨rfl, rfl, rfl⟩

/-- C10 amended: checkConn can return no error with a nil handle; in
that situation the entry handle was unhealthy and the delegated
Reconnect suppressed a retry-loop failure (the loop did not succeed),
and the subsequent delegated driver call dereferences a nil handle. -/
theorem c10_amended_nil_handle :
    ∀ (oenv : OpEnv) (st : ReConn),
      (checkConn oenv.checkEnv st).err = none →
      (checkConn oenv.checkEnv st).st.conn = none →
      healthy st = false ∧ (retryLoop oenv.checkEnv).endKind ≠ EndKind.success ∧
        (Query oenv st).out = OpOutcome.nilDeref := by
  intro oenv st h1 h2
  have hh : healthy st = false := by
    cases hst : healthy st
    · rfl
    · exfalso
      simp [checkConn, hst] at h2
      simp [healthy, h2] at hst
  refine ⟨hh, ?_, ?_⟩
  · simp only [checkConn, hh] at h1 h2
    simp only [Bool.false_eq_true, if_false] at h1 h2
    by_cases hcs : st.connString = ""
    · exfalso
      unfold Reconnect at h1
      simp [hcs] at h1
    · rw [Reconnect_st_eq oenv.checkEnv st hcs] at h2
      have h3 : (retryLoop oenv.checkEnv).conn = none := h2
      rcases retryAux_conn_char oenv.checkEnv oenv.checkEnv.waits 0 with ⟨hk, _, c, hc⟩ | ⟨hk, _, _⟩
      · exfalso
        have hc2 : (retryLoop oenv.checkEnv).conn = some c := hc
        rw [hc2] at h3
        cases h3
      · exact hk
  · simp [Query, h1, h2]

/-- C10 amended witness: the concrete exhausting scenario instantiating
the amended theorem. -/
theorem c10_amended_witness :
    (checkConn c10Env.checkEnv c10St).err = none ∧
    (checkConn c10Env.checkEnv c10St).st.conn = none ∧
    (healthy c10St = false ∧ (retryLoop c10Env.checkEnv).endKind ≠ EndKind.success ∧
      (Query c10Env c10St).out = OpOutcome.nilDeref) :=
  ⟨rfl, rfl, c10_amended_nil_handle c10Env c10St rfl rfl⟩

/-- C2: for Query, Exec and Ping, when the delegated call fails with a
retryable error, exactly one Reconnect is performed; if that Reconnect
errs the operation returns the composite ErrReconnect error naming both
the reconnect failure and the original failure after exactly one driver
call; if the Reconnect returns no error and produced a handle, the call
is re-issued exactly once (two driver calls in total) and its outcome is
returned as-is. -/
theorem c2_retryable_one_reconnect_one_retry :
    ∀ (env : OpEnv) (st : ReConn) (h : Conn) (e : Err),
      st.conn = some h → h.closed = false →
      env.call1.err = some e → reconnectable e = true →
      ((Query env st).reconnectCalls = 1 ∧
        (∀ re, (Reconnect env.retryEnv st).err = some re →
          (Query env st).out = OpOutcome.ret none (some (Err.reconnectFailed re e)) ∧
          (Query env st).driverCalls = 1) ∧
        ((Reconnect env.retryEnv st).err = none →
          ∀ h2, (Reconnect env.retryEnv st).st.conn = some h2 →
            (Query env st).driverCalls = 2 ∧
            (Query env st).out = OpOutcome.ret (some env.call2.val) env.call2.err)) ∧
      ((Exec env st).reconnectCalls = 1 ∧
        (∀ re, (Reconnect env.retryEnv st).err = some re →
          (Exec env st).out = OpOutcome.ret none (some (Err.reconnectFailed re e)) ∧
          (Exec env st).driverCalls = 1) ∧
        ((Reconnect env.retryEnv st).err = none →
          ∀ h2, (Reconnect env.retryEnv st).st.conn = some h2 →
            (Exec env st).driverCalls = 2 ∧
            (Exec env st).out = OpOutcome.ret (some env.call2.val) env.call2.err)) ∧
      ((Ping env st).reconnectCalls = 1 ∧
        (∀ re, (Reconnect env.retryEnv st).err = some re →
          (Ping env st).out = OpOutcome.ret none (some (Err.reconnectFailed re e)) ∧
          (Ping env st).driverCalls = 1) ∧
        ((Reconnect env.retryEnv st).err = none →
          ∀ h2, (Reconnect env.retryEnv st).st.conn = some h2 →
            (Ping env st).driverCalls = 2 ∧
            (Ping env st).out = OpOutcome.ret none env.call2.err)) := by
  intro env st h e hconn hcl hc1 hrec
  have hh : healthy st = true := by simp [healthy, hconn, hcl]
  have hck : ∀ cenv, checkConn cenv st = ⟨none, st, 0, 0, 0⟩ := by
    intro cenv
    simp [checkConn, hh]
  refine ⟨⟨?_, ?_, ?_⟩, ⟨?_, ?_, ?_⟩, ⟨?_, ?_, ?_⟩⟩
  · cases hre : (Reconnect env.retryEnv st).err with
    | some re => simp [Query, hck, hconn, hc1, hrec, hre]
    | none =>
      cases hrc : (Reconnect env.retryEnv st).st.conn with
      | none => simp [Query, hck, hconn, hc1, hrec, hre, hrc]
      | some h2 => simp [Query, hck, hconn, hc1, hrec, hre, hrc]
  · intro re hre
    constructor <;> simp [Query, hck, hconn, hc1, hrec, hre]
  · intro hre h2 hrc
    constructor <;> simp [Query, hck, hconn, hc1, hrec, hre, hrc]
  · cases hre : (Reconnect env.retryEnv st).err with
    | some re => simp [Exec, hck, hconn, hc1, hrec, hre]
    | none =>
      cases hrc : (Reconnect env.retryEnv st).st.conn with
      | none => simp [Exec, hck, hconn, hc1, hrec, hre, hrc]
      | some h2 => simp [Exec, hck, hconn, hc1, hrec, hre, hrc]
  · intro re hre
    constructor <;> simp [Exec, hck, hconn, hc1, hrec, hre]
  · intro hre h2 hrc
    constructor <;> simp [Exec, hck, hconn, hc1, hrec, hre, hrc]
  · cases hre : (Reconnect env.retryEnv st).err with
    | some re => simp [Ping, hck, hconn, hc1, hrec, hre]
    | none =>
      cases hrc : (Reconnect env.retryEnv st).st.conn with
      | none => simp [Ping, hck, hconn, hc1, hrec, hre, hrc]
      | some h2 => simp [Ping, hck, hconn, hc1, hrec, hre, hrc]
  · intro re hre
    constructor <;> simp [Ping, hck, hconn, hc1, hrec, hre]
  · intro hre h2 hrc
    constructor <;> simp [Ping, hck, hconn, hc1, hrec, hre, hrc]

/-- C2 witness: a concrete conn-closed failure followed by a successful
reconnect: one Reconnect, one re-issued call, second outcome returned
as-is. -/
theorem c2_witness :
    c2St.conn = some ⟨1, false⟩ ∧
    reconnectable (Err.driver ⟨"conn closed", false, false, false⟩) = true ∧
    (Query c2Env c2St).reconnectCalls = 1 ∧
    (Query c2Env c2St).driverCalls = 2 ∧
    (Query c2Env c2St).out = OpOutcome.ret (some 7) none := by
  have hmain := c2_retryable_one_reconnect_one_retry c2Env c2St ⟨1, false⟩
    (Err.driver ⟨"conn closed", false, false, false⟩) rfl rfl rfl (by decide)
  have hq := hmain.1.2.2 rfl ⟨2, false⟩ rfl
  exact ⟨rfl, by decide, hmain.1.1, hq.1, hq.2⟩

/-- C4: for Query, Exec and Ping, when the delegated call fails with a
non-retryable error, no additional driver call and no Reconnect is made
and the driver error is returned to the caller unchanged. -/
theorem c4_nonretryable_passthrough :
    ∀ (env : OpEnv) (st : ReConn) (h : Conn) (e : Err),
      st.conn = some h → h.closed = false →
      env.call1.err = some e → reconnectable e = false →
      Query env st = ⟨OpOutcome.ret (some env.call1.val) (some e), 1, 0, st⟩ ∧
      Exec env st = ⟨OpOutcome.ret (some env.call1.val) (some e), 1, 0, st⟩ ∧
      Ping env st = ⟨OpOutcome.ret none (some e), 1, 0, st⟩ := by
  intro env st h e hconn hcl hc1 hrec
  have hh : healthy st = true := by simp [healthy, hconn, hcl]
  have hck : ∀ cenv, checkConn cenv st = ⟨none, st, 0, 0, 0⟩ := by
    intro cenv
    simp [checkConn, hh]
  refine ⟨?_, ?_, ?_⟩
  · simp [Query, hck, hconn, hc1, hrec]
  · simp [Exec, hck, hconn, hc1, hrec]
  · simp [Ping, hck, hconn, hc1, hrec]

/-- C4 witness: a concrete syntax error is returned unchanged with one
driver call and no Reconnect. -/
theorem c4_witness :
    reconnectable (Err.driver ⟨"syntax error", false, false, false⟩) = false ∧
    Query c4Env c4St =
      ⟨OpOutcome.ret (some 3) (some (Err.driver ⟨"syntax error", false, false, false⟩)), 1, 0, c4St⟩ := by
  have hmain := c4_nonretryable_passthrough c4Env c4St ⟨1, false⟩
    (Err.driver ⟨"syntax error", false, false, false⟩) rfl rfl rfl (by decide)
  exact ⟨by decide, hmain.1⟩

/-- C8: QueryRow performs the health check and then delegates exactly
once with no retry and no Reconnect after delegation: any error QueryRow
returns is exactly the error the health check produced, its Reconnect
count is exactly the health check's, and on a healthy handle it makes
one delegated call and returns the driver row handle as-is with a nil
error. -/
theorem c8_queryrow_no_retry :
    ∀ (env : RowEnv) (st : ReConn),
      (∀ v e, (QueryRow env st).out = OpOutcome.ret v (some e) →
        (checkConn env.checkEnv st).err = some e) ∧
      ((QueryRow env st).reconnectCalls = (checkConn env.checkEnv st).reconnectCalls) ∧
      (healthy st = true →
        QueryRow env st = ⟨OpOutcome.ret (some env.rowVal) none, 1, 0, st⟩) := by
  intro env st
  refine ⟨?_, ?_, ?_⟩
  · intro v e h
    cases hce : (checkConn env.checkEnv st).err with
    | some e0 =>
      simp [QueryRow, hce] at h
      rw [h.2]
    | none =>
      cases hcc : (checkConn env.checkEnv st).st.conn with
      | none => simp [QueryRow, hce, hcc] at h
      | some hdl => simp [QueryRow, hce, hcc] at h
  · cases hce : (checkConn env.checkEnv st).err with
    | some e0 => simp [QueryRow, hce]
    | none =>
      cases hcc : (checkConn env.checkEnv st).st.conn with
      | none => simp [QueryRow, hce, hcc]
      | some hdl => simp [QueryRow, hce, hcc]
  · intro hh
    have hck : checkConn env.checkEnv st = ⟨none, st, 0, 0, 0⟩ := by
      simp [checkConn, hh]
    cases hc : st.conn with
    | none => simp [healthy, hc] at hh
    | some hdl => simp [QueryRow, hck, hc]

/-- C8 witness: a concrete healthy handle: one delegated call, the row
handle returned as-is with a nil error. -/
theorem c8_witness :
    healthy c8St = true ∧
    QueryRow c8Env c8St = ⟨OpOutcome.ret (some 11) none, 1, 0, c8St⟩ :=
  ⟨rfl, (c8_queryrow_no_retry c8Env c8St).2.2 rfl⟩

end PgxReconnect
